import Mathlib

/-
Verification of the approval risk-scanning pipeline
(wallet token-approval scanner / revoker, Python source under src/).

Shallow embedding: each Python function used by the claims is translated
into an executable Lean definition; Python ints are modelled as Nat
(all quantities involved are non-negative machine-unbounded ints),
fallible code returns Except, and the single piece of mutable state in
the rule registry (the blacklisted-spender rule's points/reason fields)
is threaded explicitly.
-/

/- ===== apps/approvals/enums.py ===== -/

/-- TokenType enum from apps/approvals/enums.py. -/
inductive TokenType where
  | ERC20
  | ERC721
  | ERC1155
  | UNKNOWN
deriving DecidableEq, Repr, BEq

/-- RiskLevel enum from apps/approvals/enums.py. -/
inductive RiskLevel where
  | LOW
  | MEDIUM
  | HIGH
  | CRITICAL
deriving DecidableEq, Repr, BEq

/-- Numeric rank of a risk level, used to state monotonicity (LOW < MEDIUM < HIGH < CRITICAL). -/
def RiskLevel.rank : RiskLevel → Nat
  | .LOW => 0
  | .MEDIUM => 1
  | .HIGH => 2
  | .CRITICAL => 3

/-- Embeds risk_level_from_score (apps/approvals/enums.py): fixed thresholds
60/40/20 mapping a point total to a RiskLevel.  Scores are sums of
non-negative rule points, modelled as Nat. -/
def risk_level_from_score (score : Nat) : RiskLevel :=
  if score ≥ 60 then .CRITICAL
  else if score ≥ 40 then .HIGH
  else if score ≥ 20 then .MEDIUM
  else .LOW

/- ===== apps/wallets/services/validator.py ===== -/

/-- ASCII whitespace stripped by Python str.strip() with no argument
(space, tab, newline, carriage return, vertical tab, form feed).
Python also strips further Unicode whitespace code points; the claims and
the addresses involved are ASCII, so the embedding models the ASCII set. -/
def pyIsSpace (c : Char) : Bool :=
  c = ' ' || c = '\t' || c = '\n' || c = '\r' || c = '\x0b' || c = '\x0c'

/-- Embeds Python str.strip(): drop leading and trailing whitespace. -/
def pyStrip (s : List Char) : List Char :=
  ((s.dropWhile pyIsSpace).reverse.dropWhile pyIsSpace).reverse

/-- One character of Python str.lower() restricted to ASCII (the validator
only lower-cases strings already matched against an ASCII hex pattern). -/
def pyLowerChar (c : Char) : Char :=
  if 'A' ≤ c ∧ c ≤ 'Z' then Char.ofNat (c.toNat + 32) else c

/-- Embeds Python str.lower() on ASCII strings. -/
def pyLower (s : String) : String :=
  String.mk (s.data.map pyLowerChar)

/-- A hexadecimal digit as accepted by the regex character class [a-fA-F0-9]. -/
def isHexDigitChar (c : Char) : Bool :=
  ('0' ≤ c && c ≤ '9') || ('a' ≤ c && c ≤ 'f') || ('A' ≤ c && c ≤ 'F')

/-- The anchored regex 0x[a-fA-F0-9]\x7b40\x7d$ from WalletValidator.ADDRESS_PATTERN:
the string is 0x followed by exactly 40 hex digits. -/
def matchesAddressPattern (s : List Char) : Bool :=
  match s with
  | '0' :: 'x' :: rest => rest.length = 40 && rest.all isHexDigitChar
  | _ => false

/-- Embeds WalletValidator.validate_address: reject the empty string, strip
surrounding whitespace, match the 0x+40-hex pattern, and return the
lower-cased form; malformed input yields a ValidationError message. -/
def validate_address (address : String) : Except String String :=
  if address = "" then
    .error "Address cannot be empty"
  else
    let stripped := pyStrip address.data
    if matchesAddressPattern stripped then
      .ok (String.mk (stripped.map pyLowerChar))
    else
      .error "Invalid Ethereum address format"

/-- Embeds WalletValidator.validate_chain: ChainId is an IntEnum whose only
member is ETHEREUM = 1, so construction succeeds exactly on chain_id = 1. -/
def validate_chain (chain_id : Nat) : Except String Unit :=
  if chain_id = 1 then .ok () else .error "Unsupported chain ID"

/-- Embeds WalletValidator.validate_scan_input: validate the address, then
the chain, returning the normalized pair. -/
def validate_scan_input (address : String) (chain_id : Nat) :
    Except String (String × Nat) :=
  match validate_address address with
  | .error m => .error m
  | .ok normalized =>
    match validate_chain chain_id with
    | .error m => .error m
    | .ok _ => .ok (normalized, chain_id)

/- ===== apps/chains/constants.py ===== -/

/-- MAX_UINT256 from apps/chains/constants.py. -/
def MAX_UINT256 : Nat := 2 ^ 256 - 1

/-- The threshold computed by is_unlimited_approval as
int(MAX_UINT256 * 0.9) under Python (IEEE-754 double) semantics:
float(2^256 - 1) rounds to 2^256; the double literal 0.9 is exactly
8106479329266893 / 2^53; their product 8106479329266893 * 2^203 has a
53-bit mantissa, so the multiplication is exact and int() truncation is
the identity on it. -/
def UNLIMITED_THRESHOLD : Nat := 8106479329266893 * 2 ^ 203

/-- Embeds is_unlimited_approval (apps/chains/constants.py): an amount is
considered unlimited when it reaches the float-computed 90%-of-max threshold. -/
def is_unlimited_approval (amount : Nat) : Bool :=
  amount ≥ UNLIMITED_THRESHOLD

/- ===== shared/schemas.py ===== -/

/-- NormalizedApproval dataclass from shared/schemas.py (the canonical
approval shape produced by the normalizer). -/
structure NormalizedApproval where
  wallet_address : String
  token_address : String
  token_type : TokenType
  spender_address : String
  approved_amount : Option Nat
  is_unlimited : Bool
  is_operator : Bool
  block_number : Option Nat := none
  transaction_hash : Option String := none
deriving DecidableEq, Repr, BEq

/-- RiskEvaluation dataclass from shared/schemas.py. -/
structure RiskEvaluation where
  approval : NormalizedApproval
  risk_points : Nat
  risk_reasons : List String
  risk_level : RiskLevel
deriving DecidableEq, Repr, BEq

/-- WalletRiskSummary dataclass from shared/schemas.py. -/
structure WalletRiskSummary where
  wallet_address : String
  total_approvals : Nat
  total_risk_score : Nat
  risk_level : RiskLevel
  high_risk_count : Nat
  critical_risk_count : Nat
  evaluations : List RiskEvaluation
deriving DecidableEq, Repr, BEq

/- ===== apps/approvals/services/normalizer.py ===== -/

/-- Raw confirmed ERC20 approval record as built by
ImprovedEtherscanAdapter.get_erc20_approvals (token, spender, the
live allowance, and the block/tx kept by deduplication). -/
structure RawErc20 where
  token_address : String
  spender_address : String
  approved_amount : Nat
  block_number : Nat
  transaction_hash : String
deriving DecidableEq, Repr, BEq

/-- Raw confirmed NFT approval record as built by
ImprovedEtherscanAdapter.get_nft_approvals. -/
structure RawNft where
  token_address : String
  operator_address : String
  block_number : Nat
  transaction_hash : String
  was_approved : Bool
  is_active : Bool
deriving DecidableEq, Repr, BEq

/-- The dict of confirmed approvals returned by get_all_approvals. -/
structure RawApprovals where
  erc20 : List RawErc20
  nft : List RawNft
deriving Repr

/-- Embeds ImprovedApprovalNormalizer.normalize_erc20_approval: lower-case
the addresses, keep the live allowance, and set the unlimited flag via
is_unlimited_approval. -/
def normalize_erc20_approval (wallet_address : String) (raw : RawErc20) :
    NormalizedApproval :=
  { wallet_address := pyLower wallet_address
    token_address := pyLower raw.token_address
    token_type := .ERC20
    spender_address := pyLower raw.spender_address
    approved_amount := some raw.approved_amount
    is_unlimited := is_unlimited_approval raw.approved_amount
    is_operator := false
    block_number := some raw.block_number
    transaction_hash := some raw.transaction_hash }

/-- Embeds ImprovedApprovalNormalizer.normalize_nft_approval: amount is
always absent, the operator flag mirrors the confirmed is_active status. -/
def normalize_nft_approval (wallet_address : String) (raw : RawNft) :
    NormalizedApproval :=
  { wallet_address := pyLower wallet_address
    token_address := pyLower raw.token_address
    token_type := .ERC721
    spender_address := pyLower raw.operator_address
    approved_amount := none
    is_unlimited := false
    is_operator := raw.is_active
    block_number := some raw.block_number
    transaction_hash := some raw.transaction_hash }

/-- Embeds ImprovedApprovalNormalizer.normalize_all: normalize the ERC20
records then the NFT records (the per-record try/except skip never fires
in the embedding because the transforms are total). -/
def normalize_all (wallet_address : String) (raw : RawApprovals) :
    List NormalizedApproval :=
  raw.erc20.map (normalize_erc20_approval wallet_address) ++
    raw.nft.map (normalize_nft_approval wallet_address)

/- ===== apps/blacklists/models.py and apps/risk_engine/rules.py ===== -/

/-- BlacklistEntry row (apps/blacklists/models.py): address is unique,
severity holds the risk points to add, is_active gates snapshot membership. -/
structure BlacklistEntryRow where
  address : String
  category : String
  name : String
  severity : Nat
  is_active : Bool
deriving DecidableEq, Repr, BEq

/-- The blacklist table, ordered list of rows with unique addresses. -/
def BlacklistDb := List BlacklistEntryRow

/-- Embeds BlacklistEntry.objects.filter(is_active=True).values_list("address"):
the set of active blacklisted addresses, as captured by
BlacklistedSpenderRule.__init__ into self._blacklist_cache. -/
def active_blacklist (db : BlacklistDb) : List String :=
  (db.filter (·.is_active)).map (·.address)

/-- Embeds BlacklistEntry.objects.get(address=spender): Django get on the
unique address column, None when the row does not exist (DoesNotExist). -/
def blacklist_db_get (db : BlacklistDb) (addr : String) :
    Option BlacklistEntryRow :=
  db.find? (·.address == addr)

/-- Embeds entry.get_category_display() for BlacklistCategory choices. -/
def category_display (category : String) : String :=
  if category = "DRAINER" then "Token Drainer"
  else if category = "SCAM" then "Scam Contract"
  else if category = "PHISHING" then "Phishing"
  else if category = "EXPLOIT" then "Known Exploit"
  else if category = "UNKNOWN" then "Unknown Malicious"
  else category

/-- The reason string written onto the rule by BlacklistedSpenderRule.evaluate
on a successful database get. -/
def blacklist_entry_reason (e : BlacklistEntryRow) : String :=
  "Approval to known " ++ category_display e.category ++ ": " ++
    (if e.name = "" then "malicious contract" else e.name)

/-- The mutable instance fields of the shared BlacklistedSpenderRule object:
evaluate overwrites self.points and self.reason on a match whose database
row still exists. -/
structure BlacklistRuleState where
  points : Nat
  reason : String
deriving DecidableEq, Repr, BEq

/-- Class-attribute defaults of BlacklistedSpenderRule (points = 50). -/
def initialBlacklistRuleState : BlacklistRuleState :=
  { points := 50, reason := "Approval to known malicious contract" }

/-- The process-wide state of the ACTIVE_RULES registry: the blacklist
snapshot captured at rule construction plus the blacklisted-spender rule's
mutable fields.  The other three registered rules are stateless constants. -/
structure RulesState where
  blacklist_cache : List String
  bl_state : BlacklistRuleState
deriving DecidableEq, Repr, BEq

/-- Embeds module import of apps/risk_engine/rules.py: ACTIVE_RULES is built
once, and BlacklistedSpenderRule.__init__ snapshots the active blacklist
from the database as it stands at that moment. -/
def mkActiveRules (db : BlacklistDb) : RulesState :=
  { blacklist_cache := active_blacklist db
    bl_state := initialBlacklistRuleState }

/-- Embeds get_active_rules (apps/risk_engine/rules.py): returns the shared
module-level ACTIVE_RULES list unchanged. -/
def get_active_rules (processRules : RulesState) : RulesState :=
  processRules

/-- Embeds RiskEvaluator.__init__ (apps/risk_engine/evaluator.py): the
evaluator stores get_active_rules() — the shared singleton rule instances.
No blacklist load happens here. -/
def RiskEvaluator.mk (processRules : RulesState) : RulesState :=
  get_active_rules processRules

/-- Reason string of UnlimitedERC20ApprovalRule. -/
def UNLIMITED_REASON : String :=
  "Unlimited ERC20 approval - spender can transfer any amount"

/-- Reason string of NFTOperatorApprovalRule. -/
def NFT_OPERATOR_REASON : String :=
  "NFT operator approval - spender can transfer all your NFTs from this collection"

/-- Reason string of UnknownSpenderRule. -/
def UNKNOWN_SPENDER_REASON : String := "Approval to unverified contract"

/-- Embeds UnlimitedERC20ApprovalRule.evaluate. -/
def unlimited_erc20_applies (a : NormalizedApproval) : Bool :=
  a.token_type == .ERC20 && a.is_unlimited

/-- Embeds NFTOperatorApprovalRule.evaluate. -/
def nft_operator_applies (a : NormalizedApproval) : Bool :=
  (a.token_type == .ERC721 || a.token_type == .ERC1155) && a.is_operator

/-- KNOWN_SPENDERS allow-list of UnknownSpenderRule. -/
def KNOWN_SPENDERS : List String :=
  [ "0x7a250d5630b4cf539739df2c5dacb4c659f2488d"
  , "0xe592427a0aece92de3edee1f18e0157c05861564"
  , "0x1111111254fb6c44baaac2c91e80f689c7e4a0cf"
  , "0xdef1c0ded9bec7f1a1670819833240f027b25eff"
  , "0x00000000006c3852cbef3e08e8df289169ede581"
  , "0x7f268357a8c2552623316e2562d90e642bb538e5" ]

/-- The zero address 0x followed by 40 zeros. -/
def ZERO_ADDRESS : String := String.mk ('0' :: 'x' :: List.replicate 40 '0')

/-- Embeds UnknownSpenderRule.evaluate: applies unless the spender is a
known protocol address or the zero address. -/
def unknown_spender_applies (a : NormalizedApproval) : Bool :=
  let s := pyLower a.spender_address
  !(KNOWN_SPENDERS.contains s) && s != ZERO_ADDRESS

/-- Embeds BlacklistedSpenderRule.evaluate: membership is decided against
the snapshot; on a hit whose database row still exists, the shared rule
instance's points and reason are overwritten with the row's severity and
a reason naming its category; on a hit whose row is gone (DoesNotExist)
the previously stored fields are left as they are. -/
def blacklisted_spender_evaluate (db : BlacklistDb)
    (cache : List String) (st : BlacklistRuleState)
    (a : NormalizedApproval) : Bool × BlacklistRuleState :=
  let spender := pyLower a.spender_address
  if cache.contains spender then
    match blacklist_db_get db spender with
    | some e => (true, { points := e.severity, reason := blacklist_entry_reason e })
    | none => (true, st)
  else
    (false, st)

/- ===== apps/risk_engine/evaluator.py ===== -/

/-- Embeds RiskEvaluator.evaluate_approval: run the four registered rules
in ACTIVE_RULES order (unlimited, NFT operator, blacklisted spender,
unknown spender), summing each applicable rule's points — read after the
rule ran, so the blacklist rule contributes its freshly overwritten
fields — and collecting reasons in rule order; derive the level from the
total.  The updated blacklist-rule state is returned alongside, since the
rule instances are shared. -/
def evaluate_approval (db : BlacklistDb) (cache : List String)
    (st : BlacklistRuleState) (a : NormalizedApproval) :
    RiskEvaluation × BlacklistRuleState :=
  let unl := unlimited_erc20_applies a
  let nft := nft_operator_applies a
  let blRes := blacklisted_spender_evaluate db cache st a
  let unk := unknown_spender_applies a
  let total := (if unl then 25 else 0) + (if nft then 30 else 0) +
    (if blRes.1 then blRes.2.points else 0) + (if unk then 10 else 0)
  let reasons := (if unl then [UNLIMITED_REASON] else []) ++
    (if nft then [NFT_OPERATOR_REASON] else []) ++
    (if blRes.1 then [blRes.2.reason] else []) ++
    (if unk then [UNKNOWN_SPENDER_REASON] else [])
  ({ approval := a
     risk_points := total
     risk_reasons := reasons
     risk_level := risk_level_from_score total }, blRes.2)

/-- Embeds RiskEvaluator.evaluate_all: evaluate each approval in order,
threading the shared blacklist-rule state through the sequence. -/
def evaluate_all (db : BlacklistDb) (cache : List String)
    (st : BlacklistRuleState) :
    List NormalizedApproval → List RiskEvaluation × BlacklistRuleState
  | [] => ([], st)
  | a :: rest =>
    let head := evaluate_approval db cache st a
    let tail := evaluate_all db cache head.2 rest
    (head.1 :: tail.1, tail.2)

/-- Embeds evaluate_approvals (apps/risk_engine/evaluator.py): construct a
RiskEvaluator over the shared ACTIVE_RULES and evaluate the list; the
final blacklist-rule state persists in the process-wide registry. -/
def evaluate_approvals (processRules : RulesState) (db : BlacklistDb)
    (approvals : List NormalizedApproval) :
    List RiskEvaluation × RulesState :=
  let rules := RiskEvaluator.mk processRules
  let res := evaluate_all db rules.blacklist_cache rules.bl_state approvals
  (res.1, { rules with bl_state := res.2 })

/- ===== apps/risk_engine/aggregator.py ===== -/

/-- Embeds RiskAggregator.aggregate: an empty evaluation list yields the
zero-valued LOW summary; otherwise sum points, count HIGH and CRITICAL
evaluations, and pick the wallet level by override priority, falling back
to the thresholds applied to the integer mean.  Python computes the mean
as int(total / n) in double-precision floating point, which coincides
with Nat floor division for every total below 2^26 (individual rule sums
are bounded by 65 plus a blacklist severity). -/
def RiskAggregator.aggregate (wallet_address : String)
    (evaluations : List RiskEvaluation) : WalletRiskSummary :=
  if evaluations.isEmpty then
    { wallet_address := wallet_address
      total_approvals := 0
      total_risk_score := 0
      risk_level := .LOW
      high_risk_count := 0
      critical_risk_count := 0
      evaluations := [] }
  else
    let total_risk_score := (evaluations.map (·.risk_points)).sum
    let high_risk_count := evaluations.countP (·.risk_level == .HIGH)
    let critical_risk_count := evaluations.countP (·.risk_level == .CRITICAL)
    let avg_risk := total_risk_score / evaluations.length
    let wallet_risk_level :=
      if critical_risk_count ≥ 3 then RiskLevel.CRITICAL
      else if critical_risk_count ≥ 1 || high_risk_count ≥ 5 then RiskLevel.HIGH
      else if high_risk_count ≥ 2 then RiskLevel.MEDIUM
      else risk_level_from_score avg_risk
    { wallet_address := wallet_address
      total_approvals := evaluations.length
      total_risk_score := total_risk_score
      risk_level := wallet_risk_level
      high_risk_count := high_risk_count
      critical_risk_count := critical_risk_count
      evaluations := evaluations }

/-- Embeds aggregate_risk, the module-level convenience wrapper. -/
def aggregate_risk (wallet_address : String)
    (evaluations : List RiskEvaluation) : WalletRiskSummary :=
  RiskAggregator.aggregate wallet_address evaluations

/- ===== apps/approvals/services/adapters/indexer.py ===== -/

/-- An event record returned by the log-indexing service.  blockNumber is
modelled after the source's int(event.get("blockNumber", "0"), 16)
hex-parse, i.e. directly as the parsed number. -/
structure LogEvent where
  address : String
  topics : List String
  blockNumber : Nat
  transactionHash : String
  data : String
deriving DecidableEq, Repr, BEq

/-- Embeds the Python slice topic[-40:] prefixed with 0x: the spender or
operator address packed into the last 40 characters of an indexed topic
(for a topic shorter than 40 characters the slice is the whole string,
as in Python). -/
def topicAddress (topic : String) : String :=
  "0x" ++ String.mk (topic.data.drop (topic.data.length - 40))

/-- The candidate pair record built for one ERC20 Approval event in
get_erc20_approvals step 2 (before live confirmation). -/
structure Erc20Pair where
  token_address : String
  spender_address : String
  block_number : Nat
  transaction_hash : String
deriving DecidableEq, Repr, BEq

/-- The candidate pair record built for one ApprovalForAll event in
get_nft_approvals (before live confirmation). -/
structure NftPair where
  token_address : String
  operator_address : String
  block_number : Nat
  transaction_hash : String
  was_approved : Bool
deriving DecidableEq, Repr, BEq

/-- The Erc20Pair record a single event contributes, keyed by
(token, spender); none when the event has fewer than three topics. -/
def erc20EventRecord (ev : LogEvent) : Option ((String × String) × Erc20Pair) :=
  match ev.topics.get? 2 with
  | none => none
  | some t2 =>
    let token := pyLower ev.address
    let spender := topicAddress t2
    some ((token, spender),
      { token_address := token
        spender_address := spender
        block_number := ev.blockNumber
        transaction_hash := ev.transactionHash })

/-- All candidate ERC20 records of an event sequence, in event order. -/
def erc20Records (events : List LogEvent) :
    List ((String × String) × Erc20Pair) :=
  events.filterMap erc20EventRecord

/-- One step of the approval_pairs dict construction in
get_erc20_approvals: insert the record only if the key is absent
(`if key not in approval_pairs`), preserving dict insertion order. -/
def erc20DedupStep (acc : List ((String × String) × Erc20Pair))
    (ev : LogEvent) : List ((String × String) × Erc20Pair) :=
  match erc20EventRecord ev with
  | none => acc
  | some kv =>
    if (acc.find? (·.1 == kv.1)).isSome then acc else acc ++ [kv]

/-- Embeds step 2 of ImprovedEtherscanAdapter.get_erc20_approvals: the
deduplicated association list of candidate (token, spender) pairs. -/
def erc20_dedup (events : List LogEvent) :
    List ((String × String) × Erc20Pair) :=
  events.foldl erc20DedupStep []

/-- The NftPair record a single event contributes, keyed by
(collection, operator); none when the event has fewer than three topics.
was_approved mirrors data_hex.endswith("1"). -/
def nftEventRecord (ev : LogEvent) : Option ((String × String) × NftPair) :=
  match ev.topics.get? 2 with
  | none => none
  | some t2 =>
    let nft := pyLower ev.address
    let operator := topicAddress t2
    some ((nft, operator),
      { token_address := nft
        operator_address := operator
        block_number := ev.blockNumber
        transaction_hash := ev.transactionHash
        was_approved := ev.data.endsWith "1" })

/-- All candidate NFT records of an event sequence, in event order. -/
def nftRecords (events : List LogEvent) :
    List ((String × String) × NftPair) :=
  events.filterMap nftEventRecord

/-- The per-entry overwrite applied when a dict assignment hits an existing
key: the entry whose key matches is replaced, all others are kept. -/
def updateEntry {V : Type} (kv : (String × String) × V)
    (old : (String × String) × V) : (String × String) × V :=
  if old.1 == kv.1 then kv else old

/-- One step of the approval_pairs dict construction in get_nft_approvals:
`approval_pairs[key] = record` overwrites unconditionally — an existing
key keeps its dict position but takes the new record; a new key is
appended. -/
def nftDedupStep (acc : List ((String × String) × NftPair))
    (ev : LogEvent) : List ((String × String) × NftPair) :=
  match nftEventRecord ev with
  | none => acc
  | some kv =>
    if (acc.find? (·.1 == kv.1)).isSome then
      acc.map (updateEntry kv)
    else
      acc ++ [kv]

/-- Embeds the pair-extraction loop of
ImprovedEtherscanAdapter.get_nft_approvals. -/
def nft_dedup (events : List LogEvent) :
    List ((String × String) × NftPair) :=
  events.foldl nftDedupStep []

/-- Lookup of a key in an association list built by the dedup loops. -/
def pairsLookup {V : Type} (acc : List ((String × String) × V))
    (key : String × String) : Option V :=
  (acc.find? (·.1 == key)).map (·.2)

/- ===== apps/scans/cache.py ===== -/

/-- Embeds ScanCache.get_recent_scan: the Django cache backend either
returns a value (None or a scan id) or raises; the wrapper catches every
backend exception and reports a miss.  A cached id is returned only when
truthy (Python `if scan_id:`), so a backend value of 0 also reads as a
miss.  The Except result type witnesses that the wrapper itself can
still in principle raise; the theorems show it never does. -/
def ScanCache.get_recent_scan (backend_get : Except String (Option Nat)) :
    Except String (Option Nat) :=
  match backend_get with
  | .error _ => .ok none
  | .ok scan_id =>
    match scan_id with
    | some i => if i ≠ 0 then .ok (some i) else .ok none
    | none => .ok none

/-- Embeds ScanCache.set_recent_scan: cache.set failures are caught and
logged; the operation completes as a no-op. -/
def ScanCache.set_recent_scan (backend_set : Except String Unit) :
    Except String Unit :=
  match backend_set with
  | .error _ => .ok ()
  | .ok _ => .ok ()

/-- Embeds ScanCache.invalidate_scan: cache.delete failures are caught and
logged; the operation completes as a no-op. -/
def ScanCache.invalidate_scan (backend_delete : Except String Unit) :
    Except String Unit :=
  match backend_delete with
  | .error _ => .ok ()
  | .ok _ => .ok ()

/- ===== apps/scans/orchestrator.py ===== -/

/-- ScanStatus from apps/scans/models.py. -/
inductive ScanStatus where
  | PENDING
  | IN_PROGRESS
  | COMPLETED
  | FAILED
deriving DecidableEq, Repr, BEq

/-- The WalletScan row created and mutated by ScanOrchestrator.execute.
completed models whether completed_at has been set. -/
structure ScanRecord where
  id : Nat
  status : ScanStatus
  error_message : String
  completed : Bool
  total_approvals : Nat
  total_risk_score : Nat
  risk_level : RiskLevel
  high_risk_count : Nat
  critical_risk_count : Nat
deriving DecidableEq, Repr, BEq

/-- The scan record as WalletScan.objects.create leaves it (IN_PROGRESS,
summary fields at their model defaults). -/
def newScanRecord (i : Nat) : ScanRecord :=
  { id := i
    status := .IN_PROGRESS
    error_message := ""
    completed := false
    total_approvals := 0
    total_risk_score := 0
    risk_level := .LOW
    high_risk_count := 0
    critical_risk_count := 0 }

/-- The Python exception classes distinguished by execute's handlers:
ValidationError is caught and re-raised; everything else (including the
AttributeError raised by the missing ScanCache.invalidate_wallet
attribute) falls to the generic handler. -/
inductive PyErr where
  | validation (msg : String)
  | attributeError (msg : String)
  | other (msg : String)
deriving DecidableEq, Repr, BEq

/-- The outcomes of the external collaborators consulted by one call of
ScanOrchestrator.execute: the cache lookup (already exception-free, see
ScanCache.get_recent_scan), the WalletScan.objects.get existence check
for the cached id, and the fallible database/network effects of each
stage.  The pure stages (validation, normalization, evaluation,
aggregation) are the embedded functions themselves. -/
structure OrchEnv where
  cached_scan_id : Option Nat
  scan_exists : Nat → Bool
  get_or_create_wallet : Except String Nat
  create_scan : Except String Nat
  discover : Except String RawApprovals
  persist_db : Except String Unit
  wallet_save : Except String Unit
  process_rules : RulesState
  blacklist_db : BlacklistDb

/-- The try-block body of ScanOrchestrator.execute, translated
statement-by-statement.  An error carries the scan record as of the
raise point (None before WalletScan.objects.create), exactly the `scan`
variable the handlers consult.  On the stale-cache branch the source
calls ScanCache.invalidate_wallet, an attribute that apps/scans/cache.py
does not define (it defines invalidate_scan), so Python raises
AttributeError there. -/
def executeBody (env : OrchEnv) (wallet_address : String) (chain_id : Nat)
    (force_refresh : Bool) :
    Except (PyErr × Option ScanRecord) (Option Nat × Option ScanRecord) :=
  match validate_scan_input wallet_address chain_id with
  | .error m => .error (.validation m, none)
  | .ok (normalized_address, _chain) =>
    match if force_refresh then none else env.cached_scan_id with
    | some cached_id =>
      if env.scan_exists cached_id then
        .ok (some cached_id, none)
      else
        .error (.attributeError
          "type object ScanCache has no attribute invalidate_wallet", none)
    | none =>
      match env.get_or_create_wallet with
      | .error m => .error (.other m, none)
      | .ok _wallet_total_scans =>
        match env.create_scan with
        | .error m => .error (.other m, none)
        | .ok sid =>
          let scan0 := newScanRecord sid
          match env.discover with
          | .error m => .error (.other m, some scan0)
          | .ok raw =>
            let normalized := normalize_all normalized_address raw
            if normalized.isEmpty then
              .ok (some sid, some { scan0 with
                status := .COMPLETED, completed := true })
            else
              let evaluations :=
                (evaluate_approvals env.process_rules env.blacklist_db
                  normalized).1
              let summary := aggregate_risk normalized_address evaluations
              let scan1 := { scan0 with
                total_approvals := summary.total_approvals
                total_risk_score := summary.total_risk_score
                risk_level := summary.risk_level
                high_risk_count := summary.high_risk_count
                critical_risk_count := summary.critical_risk_count
                status := .COMPLETED
                completed := true }
              match env.persist_db with
              | .error m => .error (.other m, some scan1)
              | .ok _ =>
                match env.wallet_save with
                | .error m => .error (.other m, some scan1)
                | .ok _ => .ok (some sid, some scan1)

/-- Embeds ScanOrchestrator.execute including its two exception handlers:
a ValidationError marks the scan FAILED when one exists and re-raises;
any other exception marks the scan FAILED with the error text, stamps
completed_at, and returns None.  The result pairs the value returned (or
error re-raised) to the caller with the final state of the scan record
created by this call, if any. -/
def ScanOrchestrator.execute (env : OrchEnv) (wallet_address : String)
    (chain_id : Nat) (force_refresh : Bool) :
    Except String (Option Nat) × Option ScanRecord :=
  match executeBody env wallet_address chain_id force_refresh with
  | .ok (ret, rec) => (.ok ret, rec)
  | .error (.validation m, rec) =>
    (.error m, rec.map (fun r => { r with
      status := .FAILED, error_message := m }))
  | .error (.attributeError m, rec) =>
    (.ok none, rec.map (fun r => { r with
      status := .FAILED, error_message := m, completed := true }))
  | .error (.other m, rec) =>
    (.ok none, rec.map (fun r => { r with
      status := .FAILED, error_message := m, completed := true }))

/-- A CRITICAL-level evaluation used by the C5 witness. -/
def c5CriticalEval : RiskEvaluation :=
  { approval :=
      { wallet_address := "0xw"
        token_address := "0xt"
        token_type := .ERC20
        spender_address := "0xs"
        approved_amount := some 1
        is_unlimited := false
        is_operator := false }
    risk_points := 60
    risk_reasons := []
    risk_level := .CRITICAL }

/-- Blacklist table at module-import time for the C3 counterexample. -/
def c3Db0 : BlacklistDb :=
  [{ address := "0xbad", category := "DRAINER", name := "Drainer X"
     severity := 50, is_active := true }]

/-- Blacklist table later, when a fresh evaluator is constructed (the
entry has been removed). -/
def c3Db1 : BlacklistDb := []

/-- Blacklist table at module-import time for C10: both spenders are then
active. -/
def c10Db0 : BlacklistDb :=
  [{ address := "0xaa", category := "DRAINER", name := "EvilA"
     severity := 60, is_active := true },
   { address := "0xbb", category := "SCAM", name := "EvilB"
     severity := 70, is_active := true }]

/-- Blacklist table at evaluation time for C10: the 0xbb row is gone and
the 0xaa row now carries severity 99. -/
def c10Db1 : BlacklistDb :=
  [{ address := "0xaa", category := "DRAINER", name := "EvilA"
     severity := 99, is_active := true }]

/-- An ERC20 approval to the given spender, used by C10. -/
def c10Approval (spender : String) : NormalizedApproval :=
  { wallet_address := "0xw", token_address := "0xt"
    token_type := .ERC20, spender_address := spender
    approved_amount := some 5, is_unlimited := false
    is_operator := false, block_number := some 1
    transaction_hash := some "0xh" }

/-- Generic insert-if-absent dict step: the shape of the ERC20 dedup loop
(`if key not in approval_pairs: approval_pairs[key] = record`). -/
def keepFirstStep {V : Type} (acc : List ((String × String) × V))
    (kv : (String × String) × V) : List ((String × String) × V) :=
  if (acc.find? (·.1 == kv.1)).isSome then acc else acc ++ [kv]

/-- Generic overwrite dict step: the shape of the NFT dedup loop
(`approval_pairs[key] = record`, keeping dict position on an existing key). -/
def keepLastStep {V : Type} (acc : List ((String × String) × V))
    (kv : (String × String) × V) : List ((String × String) × V) :=
  if (acc.find? (·.1 == kv.1)).isSome then
    acc.map (updateEntry kv)
  else acc ++ [kv]

/-- An ApprovalForAll-shaped log event for the C1 counterexample: same
collection and operator in both events, distinct block numbers and
transaction hashes. -/
def c1Event (blk : Nat) (tx : String) : LogEvent :=
  { address := "0xCOL"
    topics := ["0xtopic0", "0xowner",
      "0x000000000000000000000000aaaaaaaaaaaaaaaaaaaaaaaaaaaaaaaaaaaaaaaa"]
    blockNumber := blk
    transactionHash := tx
    data := "0x1" }

/-- An environment in which every collaborator succeeds: the cache holds
scan id 7, but no scan record with that id exists; the wallet row and a
fresh scan record (id 42) can be created; discovery finds nothing. -/
def staleCacheEnv : OrchEnv :=
  { cached_scan_id := some 7
    scan_exists := fun _ => false
    get_or_create_wallet := .ok 0
    create_scan := .ok 42
    discover := .ok { erc20 := [], nft := [] }
    persist_db := .ok ()
    wallet_save := .ok ()
    process_rules := mkActiveRules []
    blacklist_db := [] }

/-- An otherwise-healthy environment whose discovery stage fails. -/
def discoveryFailEnv : OrchEnv :=
  { staleCacheEnv with
    cached_scan_id := none
    discover := .error "etherscan timeout" }

/- ===== Claims ===== -/

/-- Claim C6: the risk level of an evaluation is a pure function of its
total points given by the fixed thresholds — points ≥ 60 map to CRITICAL,
≥ 40 to HIGH, ≥ 20 to MEDIUM, below 20 to LOW — and is monotone: more
points never decrease the level. -/
theorem c6_risk_level_thresholds_monotone :
    (∀ s : Nat, 60 ≤ s → risk_level_from_score s = .CRITICAL)
    ∧ (∀ s : Nat, 40 ≤ s → s < 60 → risk_level_from_score s = .HIGH)
    ∧ (∀ s : Nat, 20 ≤ s → s < 40 → risk_level_from_score s = .MEDIUM)
    ∧ (∀ s : Nat, s < 20 → risk_level_from_score s = .LOW)
    ∧ (∀ s t : Nat, s ≤ t →
        (risk_level_from_score s).rank ≤ (risk_level_from_score t).rank) := by
  refine ⟨?_, ?_, ?_, ?_, ?_⟩
  · intro s h
    unfold risk_level_from_score
    rw [if_pos h]
  · intro s h1 h2
    unfold risk_level_from_score
    rw [if_neg (by omega), if_pos h1]
  · intro s h1 h2
    unfold risk_level_from_score
    rw [if_neg (by omega), if_neg (by omega), if_pos h1]
  · intro s h
    unfold risk_level_from_score
    rw [if_neg (by omega), if_neg (by omega), if_neg (by omega)]
  · intro s t h
    unfold risk_level_from_score
    split_ifs <;> simp [RiskLevel.rank] <;> omega

/-- Witness for C6: threshold boundaries and one monotonicity instance,
obtained by applying the claim theorem at concrete scores. -/
theorem c6_witness :
    risk_level_from_score 60 = .CRITICAL
    ∧ risk_level_from_score 40 = .HIGH
    ∧ risk_level_from_score 20 = .MEDIUM
    ∧ risk_level_from_score 19 = .LOW
    ∧ (risk_level_from_score 25).rank ≤ (risk_level_from_score 45).rank :=
  ⟨c6_risk_level_thresholds_monotone.1 60 (by decide),
   c6_risk_level_thresholds_monotone.2.1 40 (by decide) (by decide),
   c6_risk_level_thresholds_monotone.2.2.1 20 (by decide) (by decide),
   c6_risk_level_thresholds_monotone.2.2.2.1 19 (by decide),
   c6_risk_level_thresholds_monotone.2.2.2.2 25 45 (by decide)⟩

/-- Claim C8: address validation succeeds exactly on strings that, after
stripping surrounding whitespace, match 0x followed by 40 hex digits
(either case), and then returns the lower-cased stripped form; every
other string (the empty string included) is rejected with a
ValidationError.  The embedded validator is a pure function, so there are
no side effects. -/
theorem c8_validate_address_spec :
    ∀ s : String,
      (matchesAddressPattern (pyStrip s.data) = true →
        validate_address s = .ok (String.mk ((pyStrip s.data).map pyLowerChar)))
      ∧ (matchesAddressPattern (pyStrip s.data) = false →
        ∀ r : String, validate_address s ≠ .ok r) := by
  intro s
  constructor
  · intro h
    have hs : s ≠ "" := by
      intro he
      subst he
      exact absurd h (by decide)
    unfold validate_address
    rw [if_neg hs, if_pos h]
  · intro h r hc
    unfold validate_address at hc
    by_cases hs : s = ""
    · rw [if_pos hs] at hc
      cases hc
    · rw [if_neg hs] at hc
      simp [h] at hc

/-- Witness for C8: a mixed-case address surrounded by whitespace
validates to its lower-cased form, by the claim theorem. -/
theorem c8_witness :
    validate_address " 0xABcdEFabcdef0123456789ABCDEFabcdef012345 "
      = .ok "0xabcdefabcdef0123456789abcdefabcdef012345" := by
  have h := (c8_validate_address_spec " 0xABcdEFabcdef0123456789ABCDEFabcdef012345 ").1
    (by decide)
  have hs : String.mk
      ((pyStrip " 0xABcdEFabcdef0123456789ABCDEFabcdef012345 ".data).map pyLowerChar)
      = "0xabcdefabcdef0123456789abcdefabcdef012345" := by decide
  rw [h, hs]

/-- Claim C7 counterexample: the smallest integer that is at least 90% of
MAX_UINT256 = 2^256 - 1 is not flagged unlimited by the code — the
float-computed threshold int(MAX_UINT256 * 0.9) is slightly above exact
90% — so the claim's "exactly when amount ≥ 90% of 2^256 - 1" fails at
this amount, for is_unlimited_approval and for the normalizer alike. -/
theorem c7_counterexample :
    is_unlimited_approval (9 * (2 ^ 256 - 1) / 10 + 1) = false
    ∧ 9 * (2 ^ 256 - 1) ≤ 10 * (9 * (2 ^ 256 - 1) / 10 + 1)
    ∧ (normalize_erc20_approval "0xW"
        { token_address := "0xT", spender_address := "0xS"
          approved_amount := 9 * (2 ^ 256 - 1) / 10 + 1
          block_number := 1, transaction_hash := "0xh" }).is_unlimited
      = false := by
  refine ⟨by decide, by decide, ?_⟩
  have h : is_unlimited_approval (9 * (2 ^ 256 - 1) / 10 + 1) = false := by decide
  simpa [normalize_erc20_approval] using h

/-- Claim C7 as amended: the normalizer sets is_unlimited to
is_unlimited_approval of the live amount, which is true exactly when the
amount reaches the float-computed threshold int(MAX_UINT256 * 0.9)
= 8106479329266893 * 2^203 (about 90.0000000000000002% of 2^256); in
particular the maximum value 2^256 - 1 yields is_unlimited = true. -/
theorem c7_unlimited_flag :
    (∀ (w : String) (raw : RawErc20),
      (normalize_erc20_approval w raw).is_unlimited
        = is_unlimited_approval raw.approved_amount)
    ∧ (∀ amount : Nat,
        is_unlimited_approval amount = true ↔ 8106479329266893 * 2 ^ 203 ≤ amount)
    ∧ is_unlimited_approval MAX_UINT256 = true := by
  refine ⟨fun w raw => rfl, fun amount => ?_, by decide⟩
  simp [is_unlimited_approval, UNLIMITED_THRESHOLD, ge_iff_le]

/-- Witness for C7: the maximum 256-bit amount is flagged unlimited, via
the amended theorem's threshold characterization. -/
theorem c7_witness : is_unlimited_approval (2 ^ 256 - 1) = true :=
  (c7_unlimited_flag.2.1 (2 ^ 256 - 1)).mpr (by decide)

/-- Claim C9: the cache operations never raise to the caller: whatever the
backend returns or raises, get_recent_scan answers with .ok (and reports
a miss on a backend error), and set_recent_scan / invalidate_scan
complete as no-ops on a backend error. -/
theorem c9_cache_never_raises :
    (∀ b : Except String (Option Nat), ∃ v, ScanCache.get_recent_scan b = .ok v)
    ∧ (∀ m : String, ScanCache.get_recent_scan (.error m) = .ok none)
    ∧ (∀ b : Except String Unit, ScanCache.set_recent_scan b = .ok ())
    ∧ (∀ m : String, ScanCache.set_recent_scan (.error m) = .ok ())
    ∧ (∀ b : Except String Unit, ScanCache.invalidate_scan b = .ok ())
    ∧ (∀ m : String, ScanCache.invalidate_scan (.error m) = .ok ()) := by
  refine ⟨?_, fun m => rfl, ?_, fun m => rfl, ?_, fun m => rfl⟩
  · intro b
    match b with
    | .error m => exact ⟨none, rfl⟩
    | .ok none => exact ⟨none, rfl⟩
    | .ok (some i) =>
      by_cases h : i = 0
      · subst h
        exact ⟨none, rfl⟩
      · refine ⟨some i, ?_⟩
        simp [ScanCache.get_recent_scan, h]
  · intro b
    cases b <;> rfl
  · intro b
    cases b <;> rfl

/-- Claim C5: aggregation is a pure function of the evaluation list.  An
empty list yields the zero-valued LOW summary; otherwise the summary
counts and total are the evident folds over the list, and the
wallet-level risk level is chosen by override priority — CRITICAL when
critical_count ≥ 3, else HIGH when critical_count ≥ 1 or high_count ≥ 5,
else MEDIUM when high_count ≥ 2, else the standard thresholds applied to
the mean points per evaluation. -/
theorem c5_aggregate_spec :
    (∀ w : String, aggregate_risk w [] =
      { wallet_address := w, total_approvals := 0, total_risk_score := 0
        risk_level := .LOW, high_risk_count := 0, critical_risk_count := 0
        evaluations := [] })
    ∧ (∀ (w : String) (evs : List RiskEvaluation), evs ≠ [] →
        (aggregate_risk w evs).total_approvals = evs.length
        ∧ (aggregate_risk w evs).total_risk_score
            = (evs.map (·.risk_points)).sum
        ∧ (aggregate_risk w evs).critical_risk_count
            = evs.countP (·.risk_level == .CRITICAL)
        ∧ (aggregate_risk w evs).high_risk_count
            = evs.countP (·.risk_level == .HIGH)
        ∧ (aggregate_risk w evs).evaluations = evs
        ∧ (aggregate_risk w evs).risk_level =
            (if 3 ≤ (aggregate_risk w evs).critical_risk_count then .CRITICAL
             else if 1 ≤ (aggregate_risk w evs).critical_risk_count
                 ∨ 5 ≤ (aggregate_risk w evs).high_risk_count then .HIGH
             else if 2 ≤ (aggregate_risk w evs).high_risk_count then .MEDIUM
             else risk_level_from_score
               ((aggregate_risk w evs).total_risk_score
                 / (aggregate_risk w evs).total_approvals))) := by
  constructor
  · intro w
    rfl
  · intro w evs hne
    have he : evs.isEmpty = false := List.isEmpty_eq_false.mpr hne
    have hagg : aggregate_risk w evs =
        { wallet_address := w
          total_approvals := evs.length
          total_risk_score := (evs.map (·.risk_points)).sum
          risk_level :=
            if evs.countP (·.risk_level == .CRITICAL) ≥ 3 then RiskLevel.CRITICAL
            else if evs.countP (·.risk_level == .CRITICAL) ≥ 1
                || evs.countP (·.risk_level == .HIGH) ≥ 5 then RiskLevel.HIGH
            else if evs.countP (·.risk_level == .HIGH) ≥ 2 then RiskLevel.MEDIUM
            else risk_level_from_score
              ((evs.map (·.risk_points)).sum / evs.length)
          high_risk_count := evs.countP (·.risk_level == .HIGH)
          critical_risk_count := evs.countP (·.risk_level == .CRITICAL)
          evaluations := evs } := by
      simp only [aggregate_risk, RiskAggregator.aggregate, he, Bool.false_eq_true,
        if_false]
    rw [hagg]
    refine ⟨rfl, rfl, rfl, rfl, rfl, ?_⟩
    by_cases h3 : 3 ≤ evs.countP (·.risk_level == .CRITICAL)
    · simp [h3, ge_iff_le]
    · by_cases h1 : 1 ≤ evs.countP (·.risk_level == .CRITICAL)
        ∨ 5 ≤ evs.countP (·.risk_level == .HIGH)
      · simp [h3, h1, ge_iff_le]
      · by_cases h2 : 2 ≤ evs.countP (·.risk_level == .HIGH)
        · simp [h3, h1, h2, ge_iff_le, not_or] at *
        · simp [h3, h1, h2, ge_iff_le, not_or] at *


/-- Witness for C5: the empty case and a three-CRITICAL list, by the claim
theorem. -/
theorem c5_witness :
    (aggregate_risk "0xw" []).risk_level = .LOW
    ∧ (aggregate_risk "0xw" (List.replicate 3 c5CriticalEval)).critical_risk_count
        = 3 := by
  constructor
  · rw [c5_aggregate_spec.1 "0xw"]
  · have h := (c5_aggregate_spec.2 "0xw" (List.replicate 3 c5CriticalEval)
      (by decide)).2.2.1
    rw [h]
    decide



/-- Claim C3 counterexample: the blacklist membership set is not loaded at
evaluator construction.  A RiskEvaluator constructed while the database
holds c3Db1 (empty) still carries the snapshot taken when the module-level
rule registry was built over c3Db0 — under the claim its snapshot would
equal the active blacklist of c3Db1. -/
theorem c3_counterexample :
    (RiskEvaluator.mk (mkActiveRules c3Db0)).blacklist_cache
        ≠ active_blacklist c3Db1
    ∧ (RiskEvaluator.mk (mkActiveRules c3Db0)).blacklist_cache
        = active_blacklist c3Db0 := by
  decide

/-- Claim C3 as amended: evaluator construction performs no blacklist load
at all (it returns the shared module-level registry unchanged); the
membership snapshot is taken once, when the rule registry is built, and
the default points are 50; and on a blacklist match whose database row
still exists, the evaluation's points are the other applicable rules'
contributions plus the matched entry's severity — live-queried per
approval — with the reason naming the entry, overriding the default 50. -/
theorem c3_blacklist_rule :
    (∀ rules : RulesState, RiskEvaluator.mk rules = rules)
    ∧ (∀ db : BlacklistDb,
        (mkActiveRules db).blacklist_cache = active_blacklist db
        ∧ (mkActiveRules db).bl_state.points = 50)
    ∧ (∀ (db : BlacklistDb) (cache : List String) (st : BlacklistRuleState)
        (a : NormalizedApproval) (e : BlacklistEntryRow),
        cache.contains (pyLower a.spender_address) = true →
        blacklist_db_get db (pyLower a.spender_address) = some e →
        (evaluate_approval db cache st a).1.risk_points
          = (if unlimited_erc20_applies a then 25 else 0)
            + (if nft_operator_applies a then 30 else 0)
            + e.severity
            + (if unknown_spender_applies a then 10 else 0)
        ∧ blacklist_entry_reason e ∈ (evaluate_approval db cache st a).1.risk_reasons) := by
  refine ⟨fun rules => rfl, fun db => ⟨rfl, rfl⟩, ?_⟩
  intro db cache st a e hc hg
  have hbl : blacklisted_spender_evaluate db cache st a
      = (true, { points := e.severity, reason := blacklist_entry_reason e }) := by
    unfold blacklisted_spender_evaluate
    rw [if_pos hc, hg]
  constructor
  · unfold evaluate_approval
    rw [hbl]
    simp
  · unfold evaluate_approval
    rw [hbl]
    simp

/-- Witness for C3: a concrete match whose row exists with severity 77
contributes 77 points (plus 10 from the unknown-spender rule), by the
amended theorem. -/
theorem c3_witness :
    (evaluate_approval
      [{ address := "0xbad", category := "SCAM", name := "Rug"
         severity := 77, is_active := true }]
      ["0xbad"] initialBlacklistRuleState
      { wallet_address := "0xw", token_address := "0xt"
        token_type := .ERC20, spender_address := "0xbad"
        approved_amount := some 5, is_unlimited := false
        is_operator := false }).1.risk_points = 87 := by
  have h := (c3_blacklist_rule.2.2
    [{ address := "0xbad", category := "SCAM", name := "Rug"
       severity := 77, is_active := true }]
    ["0xbad"] initialBlacklistRuleState
    { wallet_address := "0xw", token_address := "0xt"
      token_type := .ERC20, spender_address := "0xbad"
      approved_amount := some 5, is_unlimited := false
      is_operator := false }
    { address := "0xbad", category := "SCAM", name := "Rug"
      severity := 77, is_active := true }
    (by decide) (by decide)).1
  rw [h]
  decide




/-- Claim C10: rule instances are shared and BlacklistedSpenderRule.evaluate
overwrites the stored points and reason on a match, so an approval whose
spender (0xbb) sits in the snapshot but whose database row is gone is
scored with whatever the shared instance last stored: evaluated alone it
gets the default 50 (total 60 with the unknown-spender rule), but
evaluated after an approval to 0xaa (whose row has severity 99) it gets
99 (total 109) and even 0xaa's reason text — two runs differing only in
earlier-evaluated approvals produce different outputs for the same final
approval. -/
theorem c10_shared_rule_state :
    blacklist_db_get c10Db1 "0xbb" = none
    ∧ (mkActiveRules c10Db0).blacklist_cache.contains "0xbb" = true
    ∧ ((evaluate_approvals (mkActiveRules c10Db0) c10Db1
        [c10Approval "0xbb"]).1.map (·.risk_points)) = [60]
    ∧ ((evaluate_approvals (mkActiveRules c10Db0) c10Db1
        [c10Approval "0xaa", c10Approval "0xbb"]).1.map (·.risk_points))
      = [109, 109]
    ∧ ((evaluate_approvals (mkActiveRules c10Db0) c10Db1
        [c10Approval "0xaa", c10Approval "0xbb"]).1.map (·.risk_reasons))
      = [["Approval to known Token Drainer: EvilA",
          "Approval to unverified contract"],
         ["Approval to known Token Drainer: EvilA",
          "Approval to unverified contract"]] := by
  refine ⟨rfl, by decide, by decide, by decide, by decide⟩



lemma erc20_foldl_records :
    ∀ (events : List LogEvent) (acc : List ((String × String) × Erc20Pair)),
    events.foldl erc20DedupStep acc
      = (erc20Records events).foldl keepFirstStep acc := by
  intro events
  induction events with
  | nil =>
    intro acc
    rfl
  | cons ev rest ih =>
    intro acc
    cases h : erc20EventRecord ev with
    | none =>
      have hstep : erc20DedupStep acc ev = acc := by
        unfold erc20DedupStep
        rw [h]
      simp only [List.foldl_cons, erc20Records, List.filterMap_cons, h, hstep]
      exact ih acc
    | some kv =>
      have hstep : erc20DedupStep acc ev = keepFirstStep acc kv := by
        unfold erc20DedupStep keepFirstStep
        rw [h]
      simp only [List.foldl_cons, erc20Records, List.filterMap_cons, h, hstep]
      exact ih _

lemma nft_foldl_records :
    ∀ (events : List LogEvent) (acc : List ((String × String) × NftPair)),
    events.foldl nftDedupStep acc
      = (nftRecords events).foldl keepLastStep acc := by
  intro events
  induction events with
  | nil =>
    intro acc
    rfl
  | cons ev rest ih =>
    intro acc
    cases h : nftEventRecord ev with
    | none =>
      have hstep : nftDedupStep acc ev = acc := by
        unfold nftDedupStep
        rw [h]
      simp only [List.foldl_cons, nftRecords, List.filterMap_cons, h, hstep]
      exact ih acc
    | some kv =>
      have hstep : nftDedupStep acc ev = keepLastStep acc kv := by
        unfold nftDedupStep keepLastStep
        rw [h]
      simp only [List.foldl_cons, nftRecords, List.filterMap_cons, h, hstep]
      exact ih _

lemma keepFirstStep_lookup {V : Type} (acc : List ((String × String) × V))
    (kv : (String × String) × V) (key : String × String) :
    pairsLookup (keepFirstStep acc kv) key
      = (pairsLookup acc key).or (if kv.1 == key then some kv.2 else none) := by
  unfold keepFirstStep pairsLookup
  cases hacc : acc.find? (·.1 == kv.1) with
  | some v =>
    simp only [hacc, Option.isSome_some, if_true]
    cases hk : (kv.1 == key) with
    | false => simp
    | true =>
      have hkey : kv.1 = key := by simpa using hk
      subst hkey
      rw [hacc]
      simp
  | none =>
    simp only [hacc, Option.isSome_none, Bool.false_eq_true, if_false]
    rw [List.find?_append]
    cases hk : (kv.1 == key) with
    | true =>
      have hkey : kv.1 = key := by simpa using hk
      subst hkey
      rw [hacc]
      simp [List.find?]
    | false =>
      simp [List.find?, hk]

lemma keepFirst_lookup {V : Type} :
    ∀ (recs acc : List ((String × String) × V)) (key : String × String),
    pairsLookup (recs.foldl keepFirstStep acc) key
      = (pairsLookup acc key).or ((recs.find? (·.1 == key)).map (·.2)) := by
  intro recs
  induction recs with
  | nil =>
    intro acc key
    simp [pairsLookup]
  | cons kv rest ih =>
    intro acc key
    rw [List.foldl_cons, ih, keepFirstStep_lookup]
    cases hk : (kv.1 == key) with
    | true => simp [List.find?_cons, hk, Option.or_assoc]
    | false => simp [List.find?_cons, hk]

lemma find?_map_update {V : Type} (kv : (String × String) × V) :
    ∀ (acc : List ((String × String) × V)) (key : String × String),
    (acc.map (updateEntry kv)).find? (·.1 == key)
      = if kv.1 == key
        then (acc.find? (·.1 == kv.1)).map (fun _ => kv)
        else acc.find? (·.1 == key) := by
  intro acc
  induction acc with
  | nil =>
    intro key
    cases hk : (kv.1 == key) <;> simp [hk]
  | cons old rest ih =>
    intro key
    cases h1 : (old.1 == kv.1) with
    | true =>
      have hf : updateEntry kv old = kv := by
        unfold updateEntry
        rw [h1]
        rfl
      have he1 : old.1 = kv.1 := by simpa using h1
      cases hk : (kv.1 == key) with
      | true =>
        have hkey : kv.1 = key := by simpa using hk
        subst hkey
        simp [List.map_cons, List.find?_cons, hf, h1, ih, -List.find?_map]
      | false =>
        have hok : (old.1 == key) = false := by
          simp only [beq_eq_false_iff_ne] at hk ⊢
          rw [he1]
          exact hk
        simp [List.map_cons, List.find?_cons, hf, hok, hk, ih, -List.find?_map]
    | false =>
      have hf : updateEntry kv old = old := by
        unfold updateEntry
        rw [h1]
        rfl
      have he1 : old.1 ≠ kv.1 := by simpa using h1
      cases hk : (kv.1 == key) with
      | true =>
        have hkey : kv.1 = key := by simpa using hk
        have hok : (old.1 == key) = false := by
          simp only [beq_eq_false_iff_ne]
          rw [← hkey]
          exact he1
        simp [List.map_cons, List.find?_cons, hf, h1, hk, hok, ih, -List.find?_map]
      | false =>
        cases h2 : (old.1 == key) <;>
          simp [List.map_cons, List.find?_cons, hf, h1, hk, h2, ih, -List.find?_map]

lemma keepLastStep_lookup {V : Type} (acc : List ((String × String) × V))
    (kv : (String × String) × V) (key : String × String) :
    pairsLookup (keepLastStep acc kv) key
      = (if kv.1 == key then some kv.2 else none).or (pairsLookup acc key) := by
  unfold keepLastStep pairsLookup
  cases hacc : acc.find? (·.1 == kv.1) with
  | some v =>
    simp only [hacc, Option.isSome_some, if_true]
    rw [find?_map_update]
    cases hk : (kv.1 == key) with
    | true =>
      simp only [hk, if_true, hacc]
      simp
    | false =>
      simp [hk]
  | none =>
    simp only [hacc, Option.isSome_none, Bool.false_eq_true, if_false]
    rw [List.find?_append]
    cases hk : (kv.1 == key) with
    | true =>
      have hkey : kv.1 = key := by simpa using hk
      subst hkey
      rw [hacc]
      simp [List.find?]
    | false =>
      simp [List.find?, hk]

lemma keepLast_lookup {V : Type} :
    ∀ (recs acc : List ((String × String) × V)) (key : String × String),
    pairsLookup (recs.foldl keepLastStep acc) key
      = ((recs.reverse.find? (·.1 == key)).map (·.2)).or (pairsLookup acc key) := by
  intro recs
  induction recs with
  | nil =>
    intro acc key
    simp [pairsLookup]
  | cons kv rest ih =>
    intro acc key
    rw [List.foldl_cons, ih, keepLastStep_lookup]
    rw [List.reverse_cons, List.find?_append]
    cases hfr : rest.reverse.find? (·.1 == key) with
    | some v => simp
    | none =>
      cases hk : (kv.1 == key) <;> simp [List.find?, hk]


/-- Claim C1 counterexample: for two ApprovalForAll events on the same
(collection, operator) pair, the NFT path retains the later-seen block
number and transaction reference (block 2, tx2), not the earliest-seen
(block 1, tx1) — the unconditional dict assignment overwrites — while
the fungible path on the same input does keep the earliest-seen. -/
theorem c1_counterexample :
    (nft_dedup [c1Event 1 "0xtx1", c1Event 2 "0xtx2"]).map
        (fun kv => (kv.2.block_number, kv.2.transaction_hash))
      = [(2, "0xtx2")]
    ∧ (erc20_dedup [c1Event 1 "0xtx1", c1Event 2 "0xtx2"]).map
        (fun kv => (kv.2.block_number, kv.2.transaction_hash))
      = [(1, "0xtx1")] := by
  constructor
  · rfl
  · rfl

/-- Claim C1 as amended: both discovery paths deduplicate candidate pairs
by (token/collection address, spender/operator address), but they retain
different representatives: for every event sequence and every pair, the
fungible path's retained record is the first (earliest-seen) candidate
record for that pair, while the non-fungible path's retained record is
the last (latest-seen) one. -/
theorem c1_dedup_retention :
    (∀ (events : List LogEvent) (key : String × String),
      pairsLookup (erc20_dedup events) key
        = ((erc20Records events).find? (·.1 == key)).map (·.2))
    ∧ (∀ (events : List LogEvent) (key : String × String),
      pairsLookup (nft_dedup events) key
        = ((nftRecords events).reverse.find? (·.1 == key)).map (·.2)) := by
  constructor
  · intro events key
    unfold erc20_dedup
    rw [erc20_foldl_records, keepFirst_lookup]
    simp [pairsLookup]
  · intro events key
    unfold nft_dedup
    rw [nft_foldl_records, keepLast_lookup]
    simp [pairsLookup]


/-- Claim C2: at a stale cache entry (cached id 7, record gone) the
orchestrator does not run a fresh scan: the stale branch calls
ScanCache.invalidate_wallet, an attribute apps/scans/cache.py never
defines (the method there is invalidate_scan), so Python raises
AttributeError, the generic handler swallows it, and execute returns the
failure indicator with no scan performed — although the identical
environment without the stale entry completes a fresh scan (id 42).
This contradicts the source's own comment on that branch
("Cache stale, continue with new scan") and the spec. -/
theorem c2_stale_cache_bug :
    ScanOrchestrator.execute staleCacheEnv
        "0xabcdefabcdef0123456789abcdefabcdef012345" 1 false
      = (.ok none, none)
    ∧ ScanOrchestrator.execute { staleCacheEnv with cached_scan_id := none }
        "0xabcdefabcdef0123456789abcdefabcdef012345" 1 false
      = (.ok (some 42),
         some { newScanRecord 42 with status := .COMPLETED, completed := true }) := by
  constructor
  · rfl
  · rfl

/-- Claim C4 counterexample: an uncaught failure in stage 3 itself — here
Wallet.objects.get_or_create raising — returns the failure indicator but
marks no scan FAILED: the scan record does not exist yet, so the claim's
"marks the scan FAILED with the captured error text" has no record to
point at (execute's final record component is none). -/
theorem c4_counterexample :
    ScanOrchestrator.execute
        { staleCacheEnv with
          cached_scan_id := none
          get_or_create_wallet := .error "database connection lost" }
        "0xabcdefabcdef0123456789abcdefabcdef012345" 1 true
      = (.ok none, none) := by
  rfl

/-- Claim C4 as amended: validation failures are re-raised to the caller
before any scan record exists; any other stage failure returns the
failure indicator (None) instead of raising, and — once the scan record
has been created — that record is marked FAILED carrying the captured
error text: shown for a discovery failure (full record equation) and for
persistence and wallet-save failures after a non-empty normalization. -/
theorem c4_failure_handling :
    ∀ (env : OrchEnv) (addr : String) (chain : Nat),
      (∀ (force : Bool) (m : String),
        validate_scan_input addr chain = .error m →
        ScanOrchestrator.execute env addr chain force = (.error m, none))
      ∧ (∀ (force : Bool) (na : String) (c : Nat) (w sid : Nat) (m : String),
          validate_scan_input addr chain = .ok (na, c) →
          force = true ∨ env.cached_scan_id = none →
          env.get_or_create_wallet = .ok w →
          env.create_scan = .ok sid →
          env.discover = .error m →
          ScanOrchestrator.execute env addr chain force
            = (.ok none, some { newScanRecord sid with
                status := .FAILED, error_message := m, completed := true }))
      ∧ (∀ (force : Bool) (na : String) (c : Nat) (w sid : Nat)
          (raw : RawApprovals) (m : String),
          validate_scan_input addr chain = .ok (na, c) →
          force = true ∨ env.cached_scan_id = none →
          env.get_or_create_wallet = .ok w →
          env.create_scan = .ok sid →
          env.discover = .ok raw →
          (normalize_all na raw).isEmpty = false →
          (env.persist_db = .error m
            ∨ (env.persist_db = .ok () ∧ env.wallet_save = .error m)) →
          (ScanOrchestrator.execute env addr chain force).1 = .ok none
          ∧ ∃ r, (ScanOrchestrator.execute env addr chain force).2 = some r
              ∧ r.status = .FAILED ∧ r.error_message = m) := by
  intro env addr chain
  refine ⟨?_, ?_, ?_⟩
  · intro force m hv
    unfold ScanOrchestrator.execute executeBody
    rw [hv]
    rfl
  · intro force na c w sid m hv hcache hw hs hd
    have hbranch : (if force then none else env.cached_scan_id) = none := by
      rcases hcache with h | h
      · rw [h]
        rfl
      · cases force
        · simpa using h
        · rfl
    unfold ScanOrchestrator.execute executeBody
    rw [hv, hbranch, hw, hs, hd]
    rfl
  · intro force na c w sid raw m hv hcache hw hs hd hne hfail
    have hbranch : (if force then none else env.cached_scan_id) = none := by
      rcases hcache with h | h
      · rw [h]
        rfl
      · cases force
        · simpa using h
        · rfl
    unfold ScanOrchestrator.execute executeBody
    rw [hv, hbranch, hw, hs, hd]
    simp only [hne, Bool.false_eq_true, if_false]
    rcases hfail with hp | ⟨hp, hws⟩
    · rw [hp]
      exact ⟨rfl, _, rfl, rfl, rfl⟩
    · rw [hp, hws]
      exact ⟨rfl, _, rfl, rfl, rfl⟩


/-- Witness for C4: a concrete discovery failure marks the freshly created
scan record FAILED with the error text and returns the failure
indicator, by the amended theorem. -/
theorem c4_witness :
    ScanOrchestrator.execute discoveryFailEnv
        "0xABCDEFabcdef0123456789ABCDEFabcdef012345" 1 true
      = (.ok none, some { newScanRecord 42 with
          status := .FAILED, error_message := "etherscan timeout"
          completed := true }) :=
  (c4_failure_handling discoveryFailEnv
      "0xABCDEFabcdef0123456789ABCDEFabcdef012345" 1).2.1
    true "0xabcdefabcdef0123456789abcdefabcdef012345" 1 0 42
    "etherscan timeout" rfl (Or.inl rfl) rfl rfl rfl
